import Mathlib

/-!
# Verification of the ninja Windows subprocess / batching core

Shallow embedding of `src/subprocess-win32.cc` (the `Subprocess`,
`SubprocessSet` and `BatchSubprocess` classes).  Byte strings are modelled as
`List Nat` (one `Nat` per byte); OS-supplied nondeterminism (`CreateProcess`
outcomes, completion-port events, overlapped-read results, exit codes) is
supplied by explicit oracle parameters.  Calls to `Win32Fatal` / `Fatal`
(which never return) are modelled as distinguished `fatal` results.
-/

set_option autoImplicit false

/-- Convert a Lean string literal to its byte-list model (one `Nat` per
character; all characters used here are ASCII, so this is the byte view the
C++ code works with). -/
def str (s : String) : List Nat := s.data.map Char.toNat

/-- `tok` matches in `buf` at index `i`. -/
def tokenAt (tok buf : List Nat) (i : Nat) : Bool :=
  tok.isPrefixOf (buf.drop i)

/-- Model of `std::string::find(tok, start)`: the smallest index `i ≥ start`
at which `tok` occurs in `buf`, or `none` (the C++ `npos`). -/
def findTok (tok buf : List Nat) (start : Nat) : Option Nat :=
  ((List.range (buf.length + 1)).filter
    (fun i => decide (start ≤ i) && tokenAt tok buf i)).head?

/-- Model of `std::string::find_first_of('\n', start)` (byte 10). -/
def findNl (buf : List Nat) (start : Nat) : Option Nat :=
  findTok [10] buf start

/-- Accumulate decimal digits, as the digit loop of C `atoi` does. -/
def atoiDigits : List Nat → Int → Int
  | c :: rest, acc =>
    if 48 ≤ c && c ≤ 57 then atoiDigits rest (acc * 10 + ((c : Int) - 48))
    else acc
  | [], acc => acc

/-- A byte C `atoi` skips as leading whitespace. -/
def isSpaceByte (c : Nat) : Bool := c = 32 || (9 ≤ c && c ≤ 13)

/-- Model of C `atoi` applied to the tail of the buffer starting at a given
position (the code calls `atoi(&buf_[jobIdStart])`): skip whitespace, read an
optional sign, then accumulate decimal digits; `0` when no digit follows. -/
def atoiAt (buf : List Nat) (pos : Nat) : Int :=
  let s := (buf.drop pos).dropWhile isSpaceByte
  match s with
  | 45 :: rest => - atoiDigits rest 0
  | 43 :: rest => atoiDigits rest 0
  | _ => atoiDigits s 0

/-- `std::set<int>::insert`: add the key if it is not already present. -/
def setInsert (s : List Int) (k : Int) : List Int :=
  if s.contains k then s else s ++ [k]

/-- Lookup in the `std::map<int, string>` model. -/
def mapLookup (m : List (Int × List Nat)) (k : Int) : Option (List Nat) :=
  match m with
  | [] => none
  | (k', v) :: rest => if k = k' then some v else mapLookup rest k

/-- `std::map<int, string>` assignment `m[k] = v`: overwrite the existing
entry for `k`, or append a new one. -/
def mapInsert (m : List (Int × List Nat)) (k : Int) (v : List Nat) :
    List (Int × List Nat) :=
  match m with
  | [] => [(k, v)]
  | (k', v') :: rest =>
    if k = k' then (k', v) :: rest else (k', v') :: mapInsert rest k v

/-- The completion marker `__batchitem_complete__` (22 bytes). -/
def completeTok : List Nat := str "__batchitem_complete__"

/-- The start marker `__batchitem__` (13 bytes). -/
def startTok : List Nat := str "__batchitem__"

/-- `ranges_to_keep.back().second = v`. -/
def updateLastSnd (rs : List (Nat × Nat)) (v : Nat) : List (Nat × Nat) :=
  match rs with
  | [] => []
  | [(a, _)] => [(a, v)]
  | r :: rest => r :: updateLastSnd rest v

/--
First pass of `BatchSubprocess::ParseOutput` (lines 437-449): scan for every
occurrence of the completion token, record its trailing id as successful, and
remember the complementary ranges of the buffer.  `loc` is the current
`find` result (`none` = `npos`, the loop exit condition).  The C++
`start_pos = buf_.find_first_of('\n', jobIdStart) + 1` wraps `npos + 1` to
`0` on `size_t`, which is modelled explicitly; in that case the next `find`
restarts at `0`, re-finds the first occurrence and the loop repeats the same
control states forever.  The fuel argument therefore makes the function
total: any terminating C++ run strictly increases `start_pos` (bounded by the
buffer length) on every iteration, so `buf.length + 2` units of fuel are
enough for every run that terminates at all, and `none` models
non-termination of the C++ loop.
-/
def pass1Loop (buf : List Nat) :
    Nat → Option Nat → List (Nat × Nat) → List Int →
    Option (List (Nat × Nat) × List Int)
  | 0, _, _, _ => none
  | _ + 1, none, ranges, succ => some (ranges, succ)
  | fuel + 1, some loc, ranges, succ =>
    let ranges := updateLastSnd ranges loc
    let jobIdStart := loc + completeTok.length + 1
    let jobId := atoiAt buf jobIdStart
    let succ := setInsert succ jobId
    let startPos :=
      match findNl buf jobIdStart with
      | some p => p + 1
      | none => 0        -- size_t: npos + 1 wraps to 0
    let ranges := ranges ++ [(startPos, buf.length)]
    pass1Loop buf fuel (findTok completeTok buf startPos) ranges succ

/-- `stripped_buf`: concatenate the kept ranges
(`append(buf_, first, second - first)`; `std::string::append` clamps the
count to the available length, as `List.take` does). -/
def extractRanges (buf : List Nat) (rs : List (Nat × Nat)) : List Nat :=
  rs.foldl (fun acc r => acc ++ ((buf.drop r.1).take (r.2 - r.1))) []

/-- The whole first pass: successful ids and the marker-stripped buffer
(`none` = the C++ loop does not terminate). -/
def stripPass (buf : List Nat) : Option (List Int × List Nat) :=
  match pass1Loop buf (buf.length + 2) (findTok completeTok buf 0)
      [(0, buf.length)] [] with
  | none => none
  | some (ranges, succ) => some (succ, extractRanges buf ranges)

/--
Second pass of `BatchSubprocess::ParseOutput` (lines 475-488): split the
stripped buffer on start tokens and map each id to the text between its
line end and the next start token (or the buffer end: `next_loc - start_pos`
with `next_loc = npos` is huge on `size_t` and `substr` clamps it, so the
slice runs to the end).  The same `npos + 1 = 0` wraparound as in
`pass1Loop` applies to `start_pos`, with the same non-termination, handled
by the same fuel discipline (`none` models non-termination).
-/
def pass2Loop (buf : List Nat) :
    Nat → Option Nat → List (Int × List Nat) →
    Option (List (Int × List Nat))
  | 0, _, _ => none
  | _ + 1, none, m => some m
  | fuel + 1, some loc, m =>
    let jobIdStart := loc + startTok.length + 1
    let jobId := atoiAt buf jobIdStart
    let startPos :=
      match findNl buf jobIdStart with
      | some p => p + 1
      | none => 0        -- size_t: npos + 1 wraps to 0
    let nextLoc := findTok startTok buf startPos
    let piece :=
      match nextLoc with
      | some n => (buf.drop startPos).take (n - startPos)
      | none => buf.drop startPos
    pass2Loop buf fuel nextLoc (mapInsert m jobId piece)

/-- Result of `BatchSubprocess::ParseOutput`: the out-parameters
`successful_jobs` and `job_output`, and the final value of the batch
object's own `buf_`. -/
structure ParseResult where
  successful : List Int
  jobOutput : List (Int × List Nat)
  buf : List Nat
  deriving DecidableEq

/--
`BatchSubprocess::ParseOutput` (lines 422-492) on a buffer: strip completion
markers recording successes, then split on start markers.  If no start token
is found after stripping, return with the (stripped) buffer and no job
output; otherwise distribute every slice into the output map and clear the
buffer.  `none` models non-termination of the C++ loops (see `pass1Loop`).
-/
def ParseOutput (buf0 : List Nat) : Option ParseResult :=
  match stripPass buf0 with
  | none => none
  | some (succ, buf) =>
    match findTok startTok buf 0 with
    | none => some ⟨succ, [], buf⟩
    | some loc =>
      match pass2Loop buf (buf.length + 2) (some loc) [] with
      | none => none
      | some m => some ⟨succ, m, []⟩

-- Concrete buffers used by the claims.

/-- The stream of §8 property 4: jobs `["echo A", "false", "echo C"]`. -/
def c1buf : List Nat :=
  str "__batchitem__=0\nA\n__batchitem_complete__=0\n__batchitem__=1\n__batchitem__=2\nC\n__batchitem_complete__=2\n"

/-! ## The `Subprocess` state machine -/

/-- `ExitStatus` from `exit_status.h`: the three exit classifications. -/
inductive ExitStatus where
  | ExitSuccess
  | ExitFailure
  | ExitInterrupted
  deriving DecidableEq

/-- The Windows `STATUS_CONTROL_C_EXIT` sentinel exit code (`0xC000013A`). -/
def CONTROL_C_EXIT : Nat := 0xC000013A

/-- One `Subprocess` object.  `child` models the `child_` process handle
(`none` = `NULL`; the `Nat` is an opaque handle id), `pipe` models whether
`pipe_` is non-`NULL`, `buf` is the accumulated output `buf_`. -/
structure Subprocess where
  child : Option Nat
  pipe : Bool
  isReading : Bool
  buf : List Nat
  useOverrideStatus : Bool
  overrideStatus : ExitStatus
  deriving DecidableEq

/-- The `Subprocess` constructor (line 24): no child, no pipe, not reading,
override disabled with `ExitFailure` as the inert override value. -/
def Subprocess.new : Subprocess :=
  ⟨none, false, false, [], false, ExitStatus.ExitFailure⟩

/-- Oracle for the one recoverable outcome of `CreateProcessA`:
spawned (with an opaque process-handle id), `ERROR_FILE_NOT_FOUND`, or any
other error (which the code turns into `Win32Fatal`). -/
inductive SpawnResult where
  | ok (handle : Nat)
  | fileNotFound
  | otherError

/-- Result of `Subprocess::Start`: either `Win32Fatal`/`Fatal` was reached,
or the function returned `ret` leaving the object in state `p`. -/
inductive StartResult where
  | fatal
  | ok (ret : Bool) (p : Subprocess)
  deriving DecidableEq

/-- The failure text installed by the `ERROR_FILE_NOT_FOUND` branch of
`Subprocess::Start` (lines 115-116). -/
def notFoundMsg : List Nat :=
  str "CreateProcess failed: The system cannot find the file specified.\n"

/--
`Subprocess::Start` (lines 74-132).  `SetupPipe` creates the named pipe and
registers it with the completion port (its own failure modes all call
`Win32Fatal` and never return, so a completed `SetupPipe` is the
precondition here); then `CreateProcessA` runs, with outcome given by the
oracle: `ERROR_FILE_NOT_FOUND` tears the pipe down, records no child handle,
installs the descriptive failure message and still returns `true`; any other
error is fatal; success records the child handle and returns `true`.
-/
def Subprocess.start (p : Subprocess) (spawn : SpawnResult) : StartResult :=
  let p := { p with pipe := true }      -- SetupPipe succeeded
  match spawn with
  | SpawnResult.fileNotFound =>
    StartResult.ok true { p with pipe := false, buf := notFoundMsg }
  | SpawnResult.otherError => StartResult.fatal
  | SpawnResult.ok h => StartResult.ok true { p with child := some h }

/-- `Subprocess::Done` (line 187): the pipe has been fully drained. -/
def Subprocess.done (p : Subprocess) : Bool := !p.pipe

/--
`Subprocess::Finish` (lines 165-185).  If an override status was injected it
is returned immediately and the object is untouched; with no child handle
the result is `ExitFailure`; otherwise the function waits for the child,
reads its exit code (supplied by the oracle), releases the handle and maps
the code: `0` to success, `CONTROL_C_EXIT` to interrupted, anything else to
failure.
-/
def Subprocess.finish (p : Subprocess) (exitCode : Nat) :
    ExitStatus × Subprocess :=
  if p.useOverrideStatus then (p.overrideStatus, p)
  else
    match p.child with
    | none => (ExitStatus.ExitFailure, p)
    | some _ =>
      let status :=
        if exitCode = 0 then ExitStatus.ExitSuccess
        else if exitCode = CONTROL_C_EXIT then ExitStatus.ExitInterrupted
        else ExitStatus.ExitFailure
      (status, { p with child := none })

/-- Oracle for `GetOverlappedResult` in `OnPipeReady`: the pipe reported
broken, some bytes completed, or another error (fatal). -/
inductive OverlappedOutcome where
  | broken
  | ok (bytes : List Nat)
  | otherError

/-- Oracle for the re-issued `ReadFile` in `OnPipeReady`: broken pipe,
pending/synchronous completion, or another error (fatal). -/
inductive ReadIssueOutcome where
  | broken
  | pending
  | otherError

/--
`Subprocess::OnPipeReady` (lines 134-163): retrieve the overlapped result
(broken pipe closes the pipe and returns; other failures are fatal), append
the bytes of a completed in-flight read to `buf_`, then issue the next
overlapped read (broken pipe closes the pipe; pending is fine; other
failures are fatal).  `none` models `Win32Fatal`.
-/
def Subprocess.onPipeReady (p : Subprocess) (r : OverlappedOutcome)
    (ri : ReadIssueOutcome) : Option Subprocess :=
  match r with
  | OverlappedOutcome.broken => some { p with pipe := false }
  | OverlappedOutcome.otherError => none
  | OverlappedOutcome.ok bytes =>
    let p := if p.isReading && !bytes.isEmpty
      then { p with buf := p.buf ++ bytes } else p
    let p := { p with isReading := true }
    match ri with
    | ReadIssueOutcome.broken => some { p with pipe := false }
    | ReadIssueOutcome.pending => some p
    | ReadIssueOutcome.otherError => none

/-! ## The batch script generator (`BatchSubprocess::BatchSubprocess`) -/

/-- Decimal rendering of a job index, modelling `_snprintf`'s `%d` (indices
are `uint32_t` values far below `INT_MAX`, so the signed print is plain
decimal). -/
def natToDecimal (n : Nat) : List Nat := (Nat.toDigits 10 n).map Char.toNat

/-- The `batch_id` line `echo __batchitem__=<i>\n` (line 391). -/
def batchIdLine (i : Nat) : List Nat :=
  str "echo __batchitem__=" ++ natToDecimal i ++ str "\n"

/-- The `batch_complete` fragment ` && echo __batchitem_complete__=<i>\n`
(lines 393-394). -/
def batchCompleteLine (i : Nat) : List Nat :=
  str " && echo __batchitem_complete__=" ++ natToDecimal i ++ str "\n"

/-- The script-building loop of the `BatchSubprocess` constructor
(lines 388-406): `script_contents += batch_id + sp.second + batch_complete`
for each job in order. -/
def scriptLoop : List (List Nat) → Nat → List Nat → List Nat
  | [], _, acc => acc
  | c :: rest, i, acc =>
    scriptLoop rest (i + 1) (acc ++ (batchIdLine i ++ c ++ batchCompleteLine i))

/-- The full generated script for a list of commands. -/
def genScript (cmds : List (List Nat)) : List Nat := scriptLoop cmds 0 []

/-- One per-job block exactly as §4.3 of the spec words it:
`echo __batchitem__=<i>` newline, then the original command joined by
`&& echo __batchitem_complete__=<i>`, newline-terminated. -/
def specBlock (i : Nat) (c : List Nat) : List Nat :=
  str "echo __batchitem__=" ++ natToDecimal i ++ [10] ++ c ++
    str " && echo __batchitem_complete__=" ++ natToDecimal i ++ [10]

/-- The spec-side script: the concatenation of the per-job blocks in
enqueue order with zero-based indices. -/
def specScript (cmds : List (List Nat)) : List Nat :=
  ((List.enumFrom 0 cmds).map (fun p => specBlock p.1 p.2)).foldr
    (fun a b => a ++ b) []

/-! ## The `SubprocessSet` event loop -/

/-- The active batch, as `DoWork` sees it: the `batch_process_` pointer
(its own `Subprocess` state lives in the store under `id`) and the
`GetChildren()` vector of child ids in enqueue order. -/
structure BatchRec where
  id : Nat
  children : List Nat
  deriving DecidableEq

/-- Pointwise update of the process store. -/
def upd (f : Nat → Subprocess) (k : Nat) (v : Subprocess) : Nat → Subprocess :=
  fun x => if x = k then v else f x

/--
`SubprocessSet`.  Processes are identified by the ids the set allocates
(`nextId`); `procs` is the heap: the state of the object behind each id.
`running` and `finished` hold ids (`finished` is FIFO: push at the back, pop
at the front); `procsToBatch` holds `(id, command)` pairs like the
`vector<SubProc>`; `batchProcess` is the `batch_process_` member.
-/
structure SubprocessSet where
  procs : Nat → Subprocess
  nextId : Nat
  running : List Nat
  finished : List Nat
  procsToBatch : List (Nat × List Nat)
  batchMode : Bool
  batchCommand : List Nat
  batchProcess : Option BatchRec

/-- A fresh `SubprocessSet` (ctor lines 197-203) with a chosen batch mode. -/
def SubprocessSet.init (bm : Bool) (bc : List Nat) : SubprocessSet :=
  ⟨fun _ => Subprocess.new, 0, [], [], [], bm, bc, none⟩

/--
`SubprocessSet::Add` (lines 250-265): allocate a fresh `Subprocess`; in
batch mode just append it to `procs_to_batch_` and hand the id back;
otherwise start it — a recorded child handle puts it in `running`, no child
handle (the not-found branch) puts it straight into `finished`.  `Start`
returns `true` on every non-fatal path, so the `return 0` branch guarded by
`!Start(...)` is unreachable; `none` models a fatal abort.
-/
def SubprocessSet.add (s : SubprocessSet) (command : List Nat)
    (spawn : SpawnResult) : Option (SubprocessSet × Nat) :=
  let id := s.nextId
  let s := { s with nextId := id + 1, procs := upd s.procs id Subprocess.new }
  if s.batchMode then
    some ({ s with procsToBatch := s.procsToBatch ++ [(id, command)] }, id)
  else
    match Subprocess.new.start spawn with
    | StartResult.fatal => none
    | StartResult.ok _ p =>
      let s := { s with procs := upd s.procs id p }
      if p.child.isSome then
        some ({ s with running := s.running ++ [id] }, id)
      else
        some ({ s with finished := s.finished ++ [id] }, id)

/--
The batch-flush prologue of `SubprocessSet::DoWork` (lines 268-280): if
`procs_to_batch_` is non-empty, build one `BatchSubprocess` over the whole
list (its children are the queued ids in order, its script is `genScript` of
the queued commands) and start it with the batch prefix.  `Start` returns
`true` on every non-fatal path, so the `return true` branch guarded by
`!Start(...)` is unreachable; on a not-found start the batch has no child
handle and is added to neither `running` nor `finished`.  The pending list
is cleared.  `none` models a fatal abort.
-/
def SubprocessSet.batchPhase (s : SubprocessSet) (spawn : SpawnResult) :
    Option SubprocessSet :=
  if s.procsToBatch.isEmpty then some s
  else
    let bid := s.nextId
    let children := s.procsToBatch.map Prod.fst
    match Subprocess.new.start spawn with
    | StartResult.fatal => none
    | StartResult.ok _ bp =>
      let s := { s with
        nextId := bid + 1,
        procs := upd s.procs bid bp,
        batchProcess := some ⟨bid, children⟩ }
      let s := if bp.child.isSome
        then { s with running := s.running ++ [bid] } else s
      some { s with procsToBatch := [] }

/-- Install an override status and output slice on one batch child
(lines 307-313): success if its index is in `successful_jobs`, the batch's
own classification otherwise; output from `job_output[child]`, which
defaults to empty when the id is absent. -/
def overrideFor (err : ExitStatus) (succ : List Int)
    (out : List (Int × List Nat)) (p : Subprocess) (i : Nat) : Subprocess :=
  { p with
    useOverrideStatus := true,
    overrideStatus :=
      if succ.contains (i : Int) then ExitStatus.ExitSuccess else err,
    buf := (mapLookup out (i : Int)).getD [] }

/-- The child-redistribution loop of `DoWork` (lines 305-315): walk the
children in index order, install the override on each and push it onto
`finished`. -/
def distribute (err : ExitStatus) (succ : List Int)
    (out : List (Int × List Nat)) :
    List Nat → Nat → (Nat → Subprocess) → List Nat →
    (Nat → Subprocess) × List Nat
  | [], _, procs, fin => (procs, fin)
  | cid :: rest, i, procs, fin =>
    distribute err succ out rest (i + 1)
      (upd procs cid (overrideFor err succ out (procs cid) i)) (fin ++ [cid])

/-- The oracle inputs one `DoWork` step consumes: the batch-start spawn
outcome, the completion-port event key (`none` = the interrupt sentinel
posted by `NotifyInterrupted`), the overlapped-read outcomes, and the batch
process's exit code. -/
structure DoWorkEnv where
  spawn : SpawnResult
  event : Option Nat
  overlapped : OverlappedOutcome
  readIssue : ReadIssueOutcome
  exitCode : Nat

/-- Result of one `DoWork` step: a fatal abort, non-termination of
`ParseOutput` (see `pass1Loop`), or a return value plus the new set state. -/
inductive DoWorkResult where
  | fatal
  | hang
  | ok (stop : Bool) (s : SubprocessSet)

/-- The returned stop flag, when `DoWork` returns. -/
def DoWorkResult.stopped : DoWorkResult → Option Bool
  | DoWorkResult.ok b _ => some b
  | _ => none

/-- The resulting set state, when `DoWork` returns. -/
def DoWorkResult.state : DoWorkResult → Option SubprocessSet
  | DoWorkResult.ok _ s => some s
  | _ => none

/--
`SubprocessSet::DoWork` (lines 267-335).  Flush the pending batch, then
block on the completion port: a `NULL` key (the interrupt sentinel) returns
`true` at once; otherwise route the event to the owning process's
`OnPipeReady`.  If that process is now done: when it is the active batch
process, `Finish` it, parse its output, install an override status and
output slice on every child and push the children onto `finished` in index
order, then drop the batch from `running` and release it; otherwise move the
process from `running` to `finished` (the `std::remove`/`resize` pair erases
every occurrence, and the push happens only if the process was present).
Return `false` on every non-interrupted path.
-/
def SubprocessSet.doWork (s : SubprocessSet) (env : DoWorkEnv) :
    DoWorkResult :=
  match s.batchPhase env.spawn with
  | none => DoWorkResult.fatal
  | some s =>
    match env.event with
    | none => DoWorkResult.ok true s
    | some pid =>
      match (s.procs pid).onPipeReady env.overlapped env.readIssue with
      | none => DoWorkResult.fatal
      | some p1 =>
        let s := { s with procs := upd s.procs pid p1 }
        if p1.done then
          match s.batchProcess with
          | some b =>
            if pid = b.id then
              let r := p1.finish env.exitCode
              match ParseOutput (r.2).buf with
              | none => DoWorkResult.hang
              | some pr =>
                let procs1 := upd s.procs b.id { r.2 with buf := pr.buf }
                let d := distribute r.1 pr.successful pr.jobOutput
                  b.children 0 procs1 s.finished
                DoWorkResult.ok false { s with
                  procs := d.1,
                  finished := d.2,
                  running := s.running.filter (fun x => x ≠ b.id),
                  batchProcess := none }
            else
              if pid ∈ s.running then
                DoWorkResult.ok false { s with
                  finished := s.finished ++ [pid],
                  running := s.running.filter (fun x => x ≠ pid) }
              else DoWorkResult.ok false s
          | none =>
            if pid ∈ s.running then
              DoWorkResult.ok false { s with
                finished := s.finished ++ [pid],
                running := s.running.filter (fun x => x ≠ pid) }
            else DoWorkResult.ok false s
        else DoWorkResult.ok false s

/-- `SubprocessSet::NextFinished` (lines 337-343): pop the oldest finished
process, if any. -/
def SubprocessSet.nextFinished (s : SubprocessSet) :
    Option Nat × SubprocessSet :=
  match s.finished with
  | [] => (none, s)
  | f :: rest => (some f, { s with finished := rest })

/-- How many of the set's collections hold the handle `h`: direct
membership in `running`, `finished` or `procs_to_batch_`, plus membership as
a recorded child of the active batch when that batch is itself in `running`
(a batched child is "running through its batch"). -/
def countIn (s : SubprocessSet) (h : Nat) : Nat :=
  s.running.count h + s.finished.count h +
    (s.procsToBatch.map Prod.fst).count h +
    (match s.batchProcess with
     | some b => if b.id ∈ s.running then b.children.count h else 0
     | none => 0)

/-! ## Helper lemmas -/

theorem pass1Loop_exit (buf : List Nat) (fuel : Nat) (ranges : List (Nat × Nat))
    (succ : List Int) :
    pass1Loop buf (fuel + 1) none ranges succ = some (ranges, succ) := rfl

theorem extractRanges_full (buf : List Nat) :
    extractRanges buf [(0, buf.length)] = buf := by
  simp [extractRanges]

/-- When the completion token does not occur, the stripping pass records no
success and keeps the buffer intact. -/
theorem stripPass_no_complete (buf : List Nat)
    (hc : findTok completeTok buf 0 = none) :
    stripPass buf = some ([], buf) := by
  unfold stripPass
  rw [hc, show buf.length + 2 = buf.length + 1 + 1 from rfl, pass1Loop_exit]
  simp [extractRanges_full]

theorem distribute_snd (err : ExitStatus) (succ : List Int)
    (out : List (Int × List Nat)) (children : List Nat) :
    ∀ (i : Nat) (procs : Nat → Subprocess) (fin : List Nat),
      (distribute err succ out children i procs fin).2 = fin ++ children := by
  induction children with
  | nil => intro i procs fin; simp [distribute]
  | cons cid rest ih =>
    intro i procs fin
    simp only [distribute]
    rw [ih]
    simp

theorem distribute_fst_notmem (err : ExitStatus) (succ : List Int)
    (out : List (Int × List Nat)) (children : List Nat) :
    ∀ (i : Nat) (procs : Nat → Subprocess) (fin : List Nat) (x : Nat),
      x ∉ children → (distribute err succ out children i procs fin).1 x = procs x := by
  induction children with
  | nil => intro i procs fin x _; rfl
  | cons cid rest ih =>
    intro i procs fin x hx
    simp only [distribute]
    rw [ih (i + 1) _ _ x (fun h => hx (List.mem_cons_of_mem _ h))]
    simp only [upd]
    rw [if_neg]
    intro h
    exact hx (h ▸ List.mem_cons_self _ _)

/-- The redistribution loop gives the child at index `k` exactly the
override computed from id `i + k`, reading the child's pre-loop state. -/
theorem distribute_fst_get (err : ExitStatus) (succ : List Int)
    (out : List (Int × List Nat)) (children : List Nat) (hnd : children.Nodup) :
    ∀ (i : Nat) (procs : Nat → Subprocess) (fin : List Nat) (k : Nat)
      (hk : k < children.length),
      (distribute err succ out children i procs fin).1 (children.get ⟨k, hk⟩) =
        overrideFor err succ out (procs (children.get ⟨k, hk⟩)) (i + k) := by
  induction children with
  | nil => intro i procs fin k hk; exact absurd hk (by simp)
  | cons cid rest ih =>
    intro i procs fin k hk
    match k with
    | 0 =>
      show (distribute err succ out (cid :: rest) i procs fin).1 cid =
        overrideFor err succ out (procs cid) (i + 0)
      simp only [distribute]
      rw [distribute_fst_notmem err succ out rest (i + 1) _ _ cid
        (List.nodup_cons.mp hnd).1]
      simp [upd]
    | k + 1 =>
      show (distribute err succ out (cid :: rest) i procs fin).1
          (rest.get ⟨k, Nat.lt_of_succ_lt_succ hk⟩) = _
      simp only [distribute]
      rw [ih (List.nodup_cons.mp hnd).2 (i + 1) _ _ k (Nat.lt_of_succ_lt_succ hk)]
      have hne : rest.get ⟨k, Nat.lt_of_succ_lt_succ hk⟩ ≠ cid := by
        intro h
        exact (List.nodup_cons.mp hnd).1
          (h ▸ List.get_mem rest k (Nat.lt_of_succ_lt_succ hk))
      simp only [upd, if_neg hne]
      rw [show i + 1 + k = i + (k + 1) by omega]
      rfl

/-- `batchIdLine i ++ c ++ batchCompleteLine i` is one spec-format block. -/
theorem block_eq_specBlock (i : Nat) (c : List Nat) :
    batchIdLine i ++ c ++ batchCompleteLine i = specBlock i c := by
  have h10 : str "\n" = [10] := rfl
  simp [batchIdLine, batchCompleteLine, specBlock, h10, List.append_assoc]

theorem scriptLoop_spec (cmds : List (List Nat)) :
    ∀ (i : Nat) (acc : List Nat),
      scriptLoop cmds i acc =
        acc ++ ((List.enumFrom i cmds).map (fun p => specBlock p.1 p.2)).foldr
          (fun a b => a ++ b) [] := by
  induction cmds with
  | nil => intro i acc; simp [scriptLoop, List.enumFrom]
  | cons c rest ih =>
    intro i acc
    simp only [scriptLoop, List.enumFrom, List.map, List.foldr]
    rw [ih (i + 1)]
    rw [block_eq_specBlock]
    simp [List.append_assoc]

/-! ## Claim theorems -/

/--
C1: on the batch output stream of jobs `["echo A", "false", "echo C"]` —
the lines `__batchitem__=0`, `A`, `__batchitem_complete__=0`,
`__batchitem__=1`, `__batchitem__=2`, `C`, `__batchitem_complete__=2` —
`ParseOutput` yields exactly the successful ids `{0, 2}`, output `"A\n"` for
job 0 and `"C\n"` for job 2, and job 1 is not in the success set and maps to
the empty output.
-/
theorem c1_batch_stream_roundtrip :
    ParseOutput c1buf =
      some ⟨[0, 2], [(0, str "A\n"), (1, []), (2, str "C\n")], []⟩ ∧
    mapLookup [(0, str "A\n"), (1, []), (2, str "C\n")] 0 = some (str "A\n") ∧
    mapLookup [(0, str "A\n"), (1, []), (2, str "C\n")] 2 = some (str "C\n") ∧
    mapLookup [(0, str "A\n"), (1, []), (2, str "C\n")] 1 = some [] ∧
    ((0 : Int) ∈ ([0, 2] : List Int) ∧ (2 : Int) ∈ ([0, 2] : List Int) ∧
      (1 : Int) ∉ ([0, 2] : List Int)) := by
  decide

/--
C3: `Subprocess::Start` on an executable-not-found failure returns `true`
(not fatal), tears the pipe down (so the process is `Done`), records no
process handle, installs a non-empty descriptive failure message as the
accumulated output, and a later `Finish()` on the process returns the
failure classification.
-/
theorem c3_start_not_found (p : Subprocess) (code : Nat)
    (hchild : p.child = none) (hov : p.useOverrideStatus = false) :
    p.start SpawnResult.fileNotFound =
      StartResult.ok true { p with pipe := false, buf := notFoundMsg } ∧
    ({ p with pipe := false, buf := notFoundMsg } : Subprocess).done = true ∧
    ({ p with pipe := false, buf := notFoundMsg } : Subprocess).child = none ∧
    notFoundMsg ≠ [] ∧
    (({ p with pipe := false, buf := notFoundMsg } : Subprocess).finish code).1 =
      ExitStatus.ExitFailure := by
  refine ⟨rfl, rfl, hchild, by decide, ?_⟩
  simp [Subprocess.finish, hov, hchild]

/-- Witness for C3 at the freshly constructed subprocess. -/
theorem c3_start_not_found_witness :
    Subprocess.new.start SpawnResult.fileNotFound =
      StartResult.ok true
        { Subprocess.new with pipe := false, buf := notFoundMsg } ∧
    ({ Subprocess.new with pipe := false, buf := notFoundMsg } :
        Subprocess).done = true ∧
    ({ Subprocess.new with pipe := false, buf := notFoundMsg } :
        Subprocess).child = none ∧
    notFoundMsg ≠ [] ∧
    (({ Subprocess.new with pipe := false, buf := notFoundMsg } :
        Subprocess).finish 0).1 = ExitStatus.ExitFailure :=
  c3_start_not_found Subprocess.new 0 rfl rfl

/--
C4: `Subprocess::Finish` maps the exit code to exactly three outcomes —
`0` to success, `CONTROL_C_EXIT` to interrupted, every other code to
failure — and when an override status was injected it returns that status
immediately with the object (in particular the process handle) untouched.
-/
theorem c4_finish_classification (p : Subprocess) (code : Nat) :
    (p.useOverrideStatus = true → p.finish code = (p.overrideStatus, p)) ∧
    (p.useOverrideStatus = false → p.child.isSome = true →
      (((p.finish code).1 = ExitStatus.ExitSuccess) ↔ code = 0) ∧
      (((p.finish code).1 = ExitStatus.ExitInterrupted) ↔
        code = CONTROL_C_EXIT) ∧
      (((p.finish code).1 = ExitStatus.ExitFailure) ↔
        (code ≠ 0 ∧ code ≠ CONTROL_C_EXIT)) ∧
      (p.finish code).2 = { p with child := none }) := by
  constructor
  · intro h
    simp [Subprocess.finish, h]
  · intro h hc
    obtain ⟨c, hc2⟩ := Option.isSome_iff_exists.mp hc
    have hz : (0 : Nat) ≠ CONTROL_C_EXIT := by decide
    by_cases h0 : code = 0
    · subst h0
      simp [Subprocess.finish, h, hc2, hz]
    · by_cases hcc : code = CONTROL_C_EXIT
      · subst hcc
        simp [Subprocess.finish, h, hc2, hz.symm, h0]
      · simp [Subprocess.finish, h, hc2, h0, hcc]

/-- Concrete subprocess with an injected interrupted override status. -/
def pOv : Subprocess :=
  { Subprocess.new with
    useOverrideStatus := true, overrideStatus := ExitStatus.ExitInterrupted }

/-- Concrete subprocess holding a live child handle. -/
def pCh : Subprocess := { Subprocess.new with child := some 1 }

/-- Witness for C4: the override branch and the exit-code branch at
concrete inputs. -/
theorem c4_finish_classification_witness :
    pOv.finish 7 = (ExitStatus.ExitInterrupted, pOv) ∧
    (pCh.finish 0).1 = ExitStatus.ExitSuccess ∧
    (pCh.finish CONTROL_C_EXIT).1 = ExitStatus.ExitInterrupted ∧
    (pCh.finish 7).1 = ExitStatus.ExitFailure := by
  refine ⟨?_, ?_, ?_, ?_⟩
  · exact (c4_finish_classification pOv 7).1 rfl
  · exact ((c4_finish_classification pCh 0).2 rfl rfl).1.mpr rfl
  · exact ((c4_finish_classification pCh CONTROL_C_EXIT).2 rfl rfl).2.1.mpr rfl
  · exact ((c4_finish_classification pCh 7).2 rfl rfl).2.2.1.mpr (by decide)

/-- A buffer holding a completion marker but no start marker. -/
def c5buf : List Nat := str "__batchitem_complete__=5\n"

/--
C5 counterexample: the claim says every buffer with no occurrence of the
start token `__batchitem__` is left unchanged with empty success set and
output map.  `c5buf` contains no start token, yet `ParseOutput` records
job 5 as successful and rewrites the buffer to empty (the first pass strips
completion-marker lines before the start-token check runs).
-/
theorem c5_no_marker_counterexample :
    findTok startTok c5buf 0 = none ∧
    ParseOutput c5buf = some ⟨[5], [], []⟩ ∧
    ParseOutput c5buf ≠ some ⟨[], [], c5buf⟩ := by
  decide

/--
C5 as amended: for every buffer containing no occurrence of the completion
token and no occurrence of the start token, `ParseOutput` terminates, leaves
the buffer unchanged and yields an empty success set and an empty output
map.
-/
theorem c5_no_marker_noop (buf : List Nat)
    (hc : findTok completeTok buf 0 = none)
    (hs : findTok startTok buf 0 = none) :
    ParseOutput buf = some ⟨[], [], buf⟩ := by
  have hstrip := stripPass_no_complete buf hc
  unfold ParseOutput
  rw [hstrip]
  simp [hs]

/-- Witness for C5 (amended) on a typical marker-free buffer. -/
theorem c5_no_marker_noop_witness :
    ParseOutput (str "hello world\n") = some ⟨[], [], str "hello world\n"⟩ :=
  c5_no_marker_noop (str "hello world\n") (by decide) (by decide)

/--
C7: when the completion-port wait delivers the `NULL`-key interrupt
sentinel, `DoWork` returns "stop" (`true`) immediately and the set state —
every process, `running`, `finished` and the pending-batch list — is exactly
what it was when the wait began (with no pending batch, exactly the state
`DoWork` started with).
-/
theorem c7_interrupt_returns_stop (s : SubprocessSet) (env : DoWorkEnv)
    (hpend : s.procsToBatch = []) (hev : env.event = none) :
    s.doWork env = DoWorkResult.ok true s := by
  simp [SubprocessSet.doWork, SubprocessSet.batchPhase, hpend, hev]

/-- Concrete set and interrupt event for the C7 witness. -/
def c7set : SubprocessSet := SubprocessSet.init false []

/-- A `DoWork` oracle delivering the interrupt sentinel. -/
def c7env : DoWorkEnv :=
  ⟨SpawnResult.ok 0, none, OverlappedOutcome.broken, ReadIssueOutcome.pending, 0⟩

/-- Witness for C7. -/
theorem c7_interrupt_returns_stop_witness :
    c7set.doWork c7env = DoWorkResult.ok true c7set :=
  c7_interrupt_returns_stop c7set c7env rfl rfl

/--
C9: the generated batch script is, for each job index `i` in enqueue order
(zero-based decimal ids), the line `echo __batchitem__=<i>` followed by the
original command joined by `&&` to `echo __batchitem_complete__=<i>`,
newline-terminated — i.e. the source's accumulating script loop produces
exactly the block-per-job format of §4.3.
-/
theorem c9_script_format (cmds : List (List Nat)) :
    genScript cmds = specScript cmds := by
  rw [genScript, specScript, scriptLoop_spec cmds 0 []]
  simp

/-- A start-token line with no trailing newline. -/
def c10buf : List Nat := str "__batchitem__=0"

/-- The `pass2Loop` control state reached on `c10buf` repeats itself
forever: there is no `'\n'` after the job id, `start_pos` wraps to `0`
(`npos + 1` on `size_t`), and the next `find` returns the same occurrence
again — so no amount of fuel makes the loop finish. -/
theorem pass2Loop_c10_diverges :
    ∀ fuel : Nat, pass2Loop c10buf fuel (some 0) [(0, [])] = none
  | 0 => rfl
  | fuel + 1 => by
    have h := pass2Loop_c10_diverges fuel
    calc pass2Loop c10buf (fuel + 1) (some 0) [(0, [])]
        = pass2Loop c10buf fuel (some 0) [(0, [])] := rfl
      _ = none := h

/--
C10 counterexample: the claim says `ParseOutput` terminates with an empty
buffer whenever the stripped buffer contains a start token.  On `c10buf`
the stripped buffer is the buffer itself and contains a start token at 0,
but `ParseOutput` does not terminate (the second-pass loop cycles through
the `npos + 1 = 0` wraparound; `none` is the non-termination result).
-/
theorem c10_parse_divergence_counterexample :
    stripPass c10buf = some ([], c10buf) ∧
    findTok startTok c10buf 0 = some 0 ∧
    ParseOutput c10buf = none := by
  decide

/--
C10 as amended: whenever `ParseOutput` finds at least one start token in
the completion-token-stripped buffer and terminates, it terminates with the
batch's accumulated buffer set to the empty string.
-/
theorem c10_buffer_emptied (buf sbuf : List Nat) (succ : List Int)
    (r : ParseResult)
    (hstrip : stripPass buf = some (succ, sbuf))
    (hfound : findTok startTok sbuf 0 ≠ none)
    (hterm : ParseOutput buf = some r) :
    r.buf = [] := by
  unfold ParseOutput at hterm
  rw [hstrip] at hterm
  simp only [] at hterm
  cases hfind : findTok startTok sbuf 0 with
  | none => exact absurd hfind hfound
  | some loc =>
    rw [hfind] at hterm
    simp only [] at hterm
    cases hp : pass2Loop sbuf (sbuf.length + 2) (some loc) [] with
    | none => rw [hp] at hterm; simp at hterm
    | some m =>
      rw [hp] at hterm
      simp only [Option.some.injEq] at hterm
      rw [← hterm]

/-- Witness for C10 (amended) on the C1 stream. -/
theorem c10_buffer_emptied_witness :
    (⟨[0, 2], [(0, str "A\n"), (1, []), (2, str "C\n")], []⟩ :
      ParseResult).buf = [] :=
  c10_buffer_emptied c1buf
    (str "__batchitem__=0\nA\n__batchitem__=1\n__batchitem__=2\nC\n")
    [0, 2] ⟨[0, 2], [(0, str "A\n"), (1, []), (2, str "C\n")], []⟩
    (by decide) (by decide) (by decide)

/--
C2: when the event delivered by the wait belongs to the active batch
process and leaves it done, `DoWork` finishes the batch, parses its output,
and every recorded child (in child-index order) receives an override status
— success when its index is in the parsed successful set, the batch's own
`Finish()` classification otherwise — and the parsed output slice for its
index (empty when the index is absent from the output map), and every child
is pushed onto `finished` in order.
-/
theorem c2_batch_redistribution (s : SubprocessSet) (env : DoWorkEnv)
    (b : BatchRec) (p1 bp : Subprocess) (err : ExitStatus) (pr : ParseResult)
    (hpend : s.procsToBatch = [])
    (hbatch : s.batchProcess = some b)
    (hev : env.event = some b.id)
    (hready : (s.procs b.id).onPipeReady env.overlapped env.readIssue = some p1)
    (hdone : p1.done = true)
    (hfin : p1.finish env.exitCode = (err, bp))
    (hparse : ParseOutput bp.buf = some pr)
    (hnodup : b.children.Nodup) :
    ∃ s2, s.doWork env = DoWorkResult.ok false s2 ∧
      s2.finished = s.finished ++ b.children ∧
      ∀ (k : Nat) (hk : k < b.children.length),
        (s2.procs (b.children.get ⟨k, hk⟩)).useOverrideStatus = true ∧
        (s2.procs (b.children.get ⟨k, hk⟩)).overrideStatus =
          (if pr.successful.contains (k : Int) then ExitStatus.ExitSuccess
           else err) ∧
        (s2.procs (b.children.get ⟨k, hk⟩)).buf =
          (mapLookup pr.jobOutput (k : Int)).getD [] := by
  have hphase : s.batchPhase env.spawn = some s := by
    simp [SubprocessSet.batchPhase, hpend]
  have hstep : s.doWork env = DoWorkResult.ok false
      { s with
        procs := (distribute err pr.successful pr.jobOutput b.children 0
          (upd (upd s.procs b.id p1) b.id { bp with buf := pr.buf })
          s.finished).1,
        finished := (distribute err pr.successful pr.jobOutput b.children 0
          (upd (upd s.procs b.id p1) b.id { bp with buf := pr.buf })
          s.finished).2,
        running := s.running.filter (fun x => x ≠ b.id),
        batchProcess := none } := by
    simp only [SubprocessSet.doWork, hphase, hev, hready, hdone, hbatch,
      hfin, hparse, if_pos rfl, if_true]
  refine ⟨_, hstep, ?_, ?_⟩
  · exact distribute_snd err pr.successful pr.jobOutput b.children 0 _ _
  · intro k hk
    have hget := distribute_fst_get err pr.successful pr.jobOutput b.children
      hnodup 0 (upd (upd s.procs b.id p1) b.id { bp with buf := pr.buf })
      s.finished k hk
    rw [Nat.zero_add] at hget
    dsimp only
    refine ⟨?_, ?_, ?_⟩ <;> rw [hget] <;> rfl

/-- Concrete one-child batch set for the C2 witness: process 0 is the
queued child, process 1 is the running batch process (pipe open, child
handle 5). -/
def c2set : SubprocessSet :=
  { procs := fun n =>
      if n = 1 then { Subprocess.new with pipe := true, child := some 5 }
      else Subprocess.new,
    nextId := 2,
    running := [1],
    finished := [],
    procsToBatch := [],
    batchMode := true,
    batchCommand := [],
    batchProcess := some ⟨1, [0]⟩ }

/-- Oracle for the C2 witness: the event is the batch's key, the pipe
reports broken (so the batch is done), and the batch exits with code 3. -/
def c2env : DoWorkEnv :=
  ⟨SpawnResult.ok 99, some 1, OverlappedOutcome.broken,
    ReadIssueOutcome.pending, 3⟩

/-- The batch process state after the broken-pipe event of `c2env`. -/
def c2p1 : Subprocess :=
  { Subprocess.new with pipe := false, child := some 5 }

/-- The batch process state after `Finish` released the handle. -/
def c2bp : Subprocess := { c2p1 with child := none }

/-- Witness for C2: the one-child batch with an empty output stream; the
batch exit code 3 classifies as failure, the child index 0 is not in the
(empty) successful set, so the child receives the failure override and
empty output, and lands on `finished`. -/
theorem c2_batch_redistribution_witness :
    ∃ s2, c2set.doWork c2env = DoWorkResult.ok false s2 ∧
      s2.finished = c2set.finished ++ (⟨1, [0]⟩ : BatchRec).children ∧
      ∀ (k : Nat) (hk : k < (⟨1, [0]⟩ : BatchRec).children.length),
        (s2.procs ((⟨1, [0]⟩ : BatchRec).children.get ⟨k, hk⟩)).useOverrideStatus
            = true ∧
        (s2.procs ((⟨1, [0]⟩ : BatchRec).children.get ⟨k, hk⟩)).overrideStatus =
          (if (⟨[], [], []⟩ : ParseResult).successful.contains (k : Int)
           then ExitStatus.ExitSuccess else ExitStatus.ExitFailure) ∧
        (s2.procs ((⟨1, [0]⟩ : BatchRec).children.get ⟨k, hk⟩)).buf =
          (mapLookup (⟨[], [], []⟩ : ParseResult).jobOutput (k : Int)).getD [] :=
  c2_batch_redistribution c2set c2env ⟨1, [0]⟩ c2p1 c2bp
    ExitStatus.ExitFailure ⟨[], [], []⟩
    rfl rfl rfl rfl rfl (by decide) (by decide) (by simp)

/-- The oracle for the batch-start-fails scenario: `CreateProcessA` reports
`ERROR_FILE_NOT_FOUND` for the batch invocation, and the wait is then woken
by the interrupt sentinel. -/
def envNotFound : DoWorkEnv :=
  ⟨SpawnResult.fileNotFound, none, OverlappedOutcome.broken,
    ReadIssueOutcome.pending, 0⟩

set_option synthInstance.maxSize 512 in
/--
C6 (the code violates it): batching one job and running `DoWork` with the
batch start failing as executable-not-found leaves the batch process — and
with it the queued child job 0 — in neither `running` nor `finished`: the
pending list is cleared, the batch record still names child 0, but the
batch was never added to `running` (it has no child handle) and nothing
ever pushes it or its children to `finished`.  The claim (and §4.2 of the
spec) requires not-found semantics identical to `Add`, where such a process
goes straight to `finished`.
-/
theorem c6_batch_notfound_dropped :
    ((SubprocessSet.init true []).add (str "missing.exe foo")
        (SpawnResult.ok 0)).map
      (fun x =>
        ((x.1.doWork envNotFound).stopped,
         (x.1.doWork envNotFound).state.map (fun s2 =>
           (s2.running, s2.finished, s2.procsToBatch.map Prod.fst,
            s2.batchProcess)))) =
      some (some true, some ([], [], [], some ⟨1, [0]⟩)) := by
  decide

/--
C8 (the code violates it): after `Add` in batch mode the job handle 0 sits
in exactly one collection (the pending-batch list), but after the `DoWork`
step whose batch start fails as executable-not-found, handle 0 is in zero
of {running, finished, pending-batch, children-of-a-running-batch} — the
claimed exactly-one invariant is broken (the batch holding it is in no
collection either).
-/
theorem c8_disjointness_violated :
    ((SubprocessSet.init true []).add (str "missing.exe foo")
        (SpawnResult.ok 0)).map
      (fun x =>
        (countIn x.1 x.2,
         (x.1.doWork envNotFound).state.map (fun s2 => countIn s2 x.2))) =
      some (1, some 0) := by
  decide
